import Mathlib

/-!
Verification of the Amundsen databuilder extractor modules:

* `databuilder/extractor/dashboard/tableau/tableau_dashboard_owner_extractor.py`
  (`TableauGraphQLApiOwnerExtractor.execute`, `TableauDashboardOwnerExtractor.extract`,
   `TableauGraphQLApiUserExtractor.execute`, `TableauDashboardUserExtractor.extract`)
* `databuilder/extractor/dashboard/tableau/tableau_dashboard_view_extractor.py`
  (`TableauGraphQLApiViewExtractor.execute`, `TableauDashboardViewExtractor.extract`)
* `databuilder/extractor/snowflake_table_owner_extractor.py`
  (`SnowflakeTableOwnerExtractor.extract`, `_get_extract_iter`)

The Python dicts that travel through these extractors map string field names to
scalar values that may be `None`; we embed a field value as `Option String`
(`none` is Python's `None`) and a record as an insertion-ordered association
list, which preserves the field order of the Python dict literals.
-/

namespace Databuilder

/-- A record produced by an extractor: a Python dict in insertion order. -/
abbrev Rec := List (String × Option String)

/-- The `owner` sub-object of a GraphQL workbook row
(`workbook['owner']['email' | 'name' | 'username']`). -/
structure TOwner where
  email : Option String
  name : Option String
  username : Option String
  deriving DecidableEq, Repr

/-- A `views` element of a GraphQL workbook row
(`view['id' | 'index' | 'name' | 'path']`); `path` is checked against
`None` by the view extractor, the other fields are only copied or rendered. -/
structure TView where
  id : String
  index : Nat
  name : String
  path : Option String
  deriving DecidableEq, Repr

/-- A GraphQL `workbooks` row as consumed by the three Tableau extraction
classes.  `projectName` and `name` are checked against `None` and so are
`Option`; the vizportal ids are only interpolated into a log message. -/
structure Workbook where
  name : Option String
  projectName : Option String
  owner : TOwner
  projectVizportalUrlId : String
  vizportalUrlId : String
  views : List TView
  deriving DecidableEq, Repr

/-- Python `x in lst` for an optional string against a list of config strings:
`None` never equals a string, so `none` is never a member. -/
def optMemList (o : Option String) (l : List String) : Bool :=
  match o with
  | some s => l.contains s
  | none => false

/-! ## TableauGraphQLApiOwnerExtractor.execute -/

/-- Configuration read by `TableauGraphQLApiOwnerExtractor.execute`:
`conf.get_string(CLUSTER)` and `conf.get_list(EXCLUDED_PROJECTS)`. -/
structure OwnerConf where
  cluster : String
  excludedProjects : List String
  deriving DecidableEq, Repr

/-- The warning logged when the owner extractor skips a workbook whose
`projectName` or `name` is `None` (f-string at lines 41-42 of
`tableau_dashboard_owner_extractor.py`). -/
def ownerWarn (wb : Workbook) : String :=
  "Ignoring workbook (ID:" ++ wb.vizportalUrlId ++ ") in project (ID:" ++
    wb.projectVizportalUrlId ++ ") because of a lack of permission"

/-- The dict yielded by `TableauGraphQLApiOwnerExtractor.execute` for a
workbook that passed both guards, with `projectName = some p` and
`name = some n`; field order is the Python dict-literal order. -/
def ownerRecord (cluster : String) (sanitize : String → String) (p n : String)
    (wb : Workbook) : Rec :=
  [("cluster", some cluster),
   ("dashboard_group_id", some p),
   ("dashboard_id", some (sanitize n)),
   ("email", wb.owner.email)]

/-- The `for workbook in workbooks_data:` loop of
`TableauGraphQLApiOwnerExtractor.execute`: a workbook with a `None`
`projectName` or `name` is skipped with a warning, every other workbook
yields one dict.  Returns the yielded dicts and the warnings, each in
program order. -/
def ownerLoop (cluster : String) (sanitize : String → String) :
    List Workbook → List Rec × List String
  | [] => ([], [])
  | wb :: rest =>
    let tail := ownerLoop cluster sanitize rest
    match wb.projectName, wb.name with
    | some p, some n => (ownerRecord cluster sanitize p n wb :: tail.1, tail.2)
    | _, _ => (tail.1, ownerWarn wb :: tail.2)

/-- `TableauGraphQLApiOwnerExtractor.execute`: first the `workbooks_data`
list comprehension drops workbooks whose `projectName` is in the excluded
projects list, then the loop runs.  `sanitize` stands for
`TableauDashboardUtils.sanitize_workbook_name`, a library helper outside
this repository, kept abstract. -/
def ownerExecute (conf : OwnerConf) (sanitize : String → String)
    (workbooks : List Workbook) : List Rec × List String :=
  ownerLoop conf.cluster sanitize
    (workbooks.filter (fun wb => !(optMemList wb.projectName conf.excludedProjects)))

/-! ## TableauGraphQLApiUserExtractor.execute -/

/-- `TableauGraphQLApiUserExtractor.execute`: yields one dict per workbook,
copying the three owner fields; there is no exclusion filter and no
null-key guard in its body (lines 138-144). -/
def userExecute (workbooks : List Workbook) : List Rec :=
  workbooks.map (fun wb =>
    [("email", wb.owner.email),
     ("full_name", wb.owner.name),
     ("first_name", wb.owner.username)])

/-! ## TableauGraphQLApiViewExtractor.execute -/

/-- Configuration read by `TableauGraphQLApiViewExtractor.execute`:
`TABLEAU_BASE_URL`, `SITE_NAME` (with default `''`), `EXCLUDED_PROJECTS`
(with default `[]`) and `CLUSTER`. -/
structure ViewConf where
  tableauBaseUrl : String
  siteName : String
  excludedProjects : List String
  cluster : String
  deriving DecidableEq, Repr

/-- `site_url_path`: `'/site/' + site_name` when a non-empty site name is
configured, else the empty string. -/
def siteUrlPath (siteName : String) : String :=
  if siteName != "" then "/site/" ++ siteName else ""

/-- The URL built for a view:
`f'\x7bbase_url\x7d/#\x7bsite_url_path\x7d/views/\x7bview["path"]\x7d'`. -/
def viewUrl (baseUrl siteName vpath : String) : String :=
  baseUrl ++ "/#" ++ siteUrlPath siteName ++ "/views/" ++ vpath

/-- The dict yielded by `TableauGraphQLApiViewExtractor.execute` for a view
with path `some vpath` inside a workbook with `projectName = some p` and
`name = some n`; field order is the Python dict-literal order. -/
def viewRecord (conf : ViewConf) (sanitize : String → String) (p n : String)
    (v : TView) (vpath : String) : Rec :=
  [("dashboard_group_id", some p),
   ("dashboard_id", some (sanitize n)),
   ("query_name", some (toString v.index ++ ". " ++ v.name)),
   ("query_id", some v.id),
   ("query_text", some (viewUrl conf.tableauBaseUrl conf.siteName vpath)),
   ("url", some (viewUrl conf.tableauBaseUrl conf.siteName vpath)),
   ("cluster", some conf.cluster)]

/-- The inner `for view in workbook['views']:` loop: views whose `path` is
`''` or `None` are skipped, the rest yield one dict each. -/
def viewInner (conf : ViewConf) (sanitize : String → String) (p n : String) :
    List TView → List Rec
  | [] => []
  | v :: vs =>
    match v.path with
    | none => viewInner conf sanitize p n vs
    | some vpath =>
      if vpath == "" then viewInner conf sanitize p n vs
      else viewRecord conf sanitize p n v vpath :: viewInner conf sanitize p n vs

/-- The outer `for workbook in response['workbooks']:` loop of
`TableauGraphQLApiViewExtractor.execute`: workbooks with a `None`
`projectName` or `name` are skipped (silently), then workbooks whose
`projectName` is excluded are skipped, then the inner view loop runs. -/
def viewOuter (conf : ViewConf) (sanitize : String → String) :
    List Workbook → List Rec
  | [] => []
  | wb :: rest =>
    match wb.projectName, wb.name with
    | some p, some n =>
      if conf.excludedProjects.contains p then viewOuter conf sanitize rest
      else viewInner conf sanitize p n wb.views ++ viewOuter conf sanitize rest
    | _, _ => viewOuter conf sanitize rest

/-- `TableauGraphQLApiViewExtractor.execute` together with its (absent)
logging: the function body contains no `LOGGER` call, so the log component
is always empty. -/
def viewExecute (conf : ViewConf) (sanitize : String → String)
    (workbooks : List Workbook) : List Rec × List String :=
  (viewOuter conf sanitize workbooks, [])

/-! ## SnowflakeTableOwnerExtractor -/

/-- One row of the information-schema query run by `SQLAlchemyExtractor`:
columns `cluster`, `schema`, `table_name`, `table_owner`. -/
structure SnowRow where
  cluster : String
  schema : String
  table_name : String
  table_owner : String
  deriving DecidableEq, Repr

/-- The `databuilder.models.table_owner.TableOwner` model as constructed by
`_get_extract_iter` (keyword arguments of the constructor call). -/
structure TableOwner where
  db_name : String
  table_name : String
  owners : List String
  schema : String
  cluster : String
  deriving DecidableEq, Repr

/-- Configuration held by an initialized `SnowflakeTableOwnerExtractor`:
`self._database` and `self._role_email_mapping`. -/
structure SnowConf where
  database : String
  roleEmailMapping : String → String

/-- `init` reads `ROLE_EMAIL_MAPPING` from the config after
`with_fallback(DEFAULT_CONFIG)`; `DEFAULT_CONFIG` supplies
`lambda role: role`, so an absent key yields the identity. -/
def snowRoleMapping (configured : Option (String → String)) : String → String :=
  configured.getD id

/-- The `TableOwner` built by `_get_extract_iter` from one SQL row. -/
def snowTableOwner (conf : SnowConf) (row : SnowRow) : TableOwner :=
  { db_name := conf.database,
    table_name := row.table_name,
    owners := [conf.roleEmailMapping row.table_owner],
    schema := row.schema,
    cluster := row.cluster }

/-- The mutable state of a `SnowflakeTableOwnerExtractor`.  `created` is
whether `self._extract_iter` is non-`None`; a Python generator object is
always truthy, so once created it is never replaced.  `rows` are the rows
the underlying `SQLAlchemyExtractor` has not yet produced (the generator of
`_get_extract_iter` pulls them one at a time and stops at the first falsy
row, which ends the list). -/
structure SnowState where
  created : Bool
  rows : List SnowRow
  deriving DecidableEq, Repr

/-- `SnowflakeTableOwnerExtractor.extract`: create the generator on first
use, then return its next `TableOwner`, or `None` (here `none`) on
`StopIteration`. -/
def snowExtract (conf : SnowConf) (s : SnowState) : Option TableOwner × SnowState :=
  match s.rows with
  | [] => (none, { created := true, rows := [] })
  | row :: rest => (some (snowTableOwner conf row), { created := true, rows := rest })

/-- `n` successive calls of `SnowflakeTableOwnerExtractor.extract`,
collecting the returned values in order. -/
def snowExtractSeq (conf : SnowConf) : Nat → SnowState → List (Option TableOwner) × SnowState
  | 0, s => ([], s)
  | Nat.succ k, s =>
    let step := snowExtract conf s
    let rest := snowExtractSeq conf k step.2
    (step.1 :: rest.1, rest.2)

/-! ## The Tableau `extract()` wrappers -/

/-- Python truthiness test `not record` on the value returned by the
underlying extractor: `None` and the empty dict are falsy. -/
def tableauFalsy (record : Option Rec) : Bool :=
  match record with
  | none => true
  | some r => r.isEmpty

/-- `TableauDashboardOwnerExtractor.extract` (lines 98-102), as a function
of the record handed back by the wrapped GraphQL extractor and of the
chained transformer `transform` (library code, kept abstract; it models
`next(self._transformer.transform(record=record), None)`). -/
def dashboardOwnerExtract {α : Type} (transform : Rec → Option α)
    (record : Option Rec) : Option α :=
  match record with
  | none => none
  | some r => if r.isEmpty then none else transform r

/-- `TableauDashboardUserExtractor.extract` (lines 204-209): same guard,
the transformed record is bound to a local before being returned. -/
def dashboardUserExtract {α : Type} (transform : Rec → Option α)
    (record : Option Rec) : Option α :=
  match record with
  | none => none
  | some r => if r.isEmpty then none else transform r

/-- `TableauDashboardViewExtractor.extract` (lines 109-114). -/
def dashboardViewExtract {α : Type} (transform : Rec → Option α)
    (record : Option Rec) : Option α :=
  match record with
  | none => none
  | some r => if r.isEmpty then none else transform r

/-- Modelled from the spec: `TableauGraphQLApiExtractor.extract` (defined in
`tableau_dashboard_utils.py`, which is not part of this repository's
sources) walks the iterator produced by `execute` and, per the spec,
signals exhaustion "by a sentinel no-more-records return rather than a
raised condition": it returns the next record of the sequence, or `none`
once the sequence is exhausted. -/
def tableauSourceExtract : List Rec → Option Rec × List Rec
  | [] => (none, [])
  | r :: rest => (some r, rest)

/-- One `extract()` call of `TableauDashboardOwnerExtractor` including the
pull from the wrapped GraphQL extractor, whose pending records are `s`. -/
def dashboardOwnerExtractStep {α : Type} (transform : Rec → Option α)
    (s : List Rec) : Option α × List Rec :=
  let pulled := tableauSourceExtract s
  (dashboardOwnerExtract transform pulled.1, pulled.2)

/-- One `extract()` call of `TableauDashboardUserExtractor` including the
pull from the wrapped GraphQL extractor. -/
def dashboardUserExtractStep {α : Type} (transform : Rec → Option α)
    (s : List Rec) : Option α × List Rec :=
  let pulled := tableauSourceExtract s
  (dashboardUserExtract transform pulled.1, pulled.2)

/-- One `extract()` call of `TableauDashboardViewExtractor` including the
pull from the wrapped GraphQL extractor. -/
def dashboardViewExtractStep {α : Type} (transform : Rec → Option α)
    (s : List Rec) : Option α × List Rec :=
  let pulled := tableauSourceExtract s
  (dashboardViewExtract transform pulled.1, pulled.2)

/-- `s` contains `pat` as a contiguous substring. -/
def strContains (s pat : String) : Prop :=
  ∃ a b : String, s = a ++ pat ++ b

/-! ## Spec-side record shapes -/

/-- The record the spec prescribes for the dashboard-owner extractor:
fields `cluster`, `dashboard_group_id`, `dashboard_id`, `email`, mapped
respectively from the configured cluster, the workbook's `projectName`,
the sanitized workbook name, and the workbook owner's email. -/
def ownerSpecRecord (cluster : String) (sanitize : String → String)
    (wb : Workbook) : Rec :=
  [("cluster", some cluster),
   ("dashboard_group_id", wb.projectName),
   ("dashboard_id", wb.name.map sanitize),
   ("email", wb.owner.email)]

/-- A workbook the owner extractor keeps: both join keys present and the
project not excluded. -/
def ownerKeep (conf : OwnerConf) (wb : Workbook) : Bool :=
  (wb.projectName.isSome && wb.name.isSome) &&
    !(optMemList wb.projectName conf.excludedProjects)

/-- A workbook the owner extractor warns about: not excluded, but with a
`None` join key. -/
def ownerWarned (conf : OwnerConf) (wb : Workbook) : Bool :=
  !(wb.projectName.isSome && wb.name.isSome) &&
    !(optMemList wb.projectName conf.excludedProjects)

/-! ## Characterization lemmas -/

lemma ownerLoop_fst (c : String) (san : String → String) :
    ∀ l : List Workbook, (ownerLoop c san l).1 =
      (l.filter (fun wb => wb.projectName.isSome && wb.name.isSome)).map
        (ownerSpecRecord c san)
  | [] => rfl
  | wb :: rest => by
    cases hp : wb.projectName <;> cases hn : wb.name <;>
      simp [ownerLoop, ownerLoop_fst c san rest, ownerSpecRecord, ownerRecord,
        List.filter_cons, hp, hn]

lemma ownerLoop_snd (c : String) (san : String → String) :
    ∀ l : List Workbook, (ownerLoop c san l).2 =
      (l.filter (fun wb => !(wb.projectName.isSome && wb.name.isSome))).map ownerWarn
  | [] => rfl
  | wb :: rest => by
    cases hp : wb.projectName <;> cases hn : wb.name <;>
      simp [ownerLoop, ownerLoop_snd c san rest, List.filter_cons, hp, hn]

lemma ownerExecute_fst_eq (conf : OwnerConf) (san : String → String)
    (wbs : List Workbook) :
    (ownerExecute conf san wbs).1 =
      (wbs.filter (ownerKeep conf)).map (ownerSpecRecord conf.cluster san) := by
  unfold ownerExecute
  rw [ownerLoop_fst, List.filter_filter]
  rfl

lemma ownerExecute_snd_eq (conf : OwnerConf) (san : String → String)
    (wbs : List Workbook) :
    (ownerExecute conf san wbs).2 =
      (wbs.filter (ownerWarned conf)).map ownerWarn := by
  unfold ownerExecute
  rw [ownerLoop_snd, List.filter_filter]
  rfl

lemma mem_ownerExecute {conf : OwnerConf} {san : String → String}
    {wbs : List Workbook} {rec : Rec} (h : rec ∈ (ownerExecute conf san wbs).1) :
    ∃ wb, wb ∈ wbs ∧ ownerKeep conf wb = true ∧
      rec = ownerSpecRecord conf.cluster san wb := by
  rw [ownerExecute_fst_eq] at h
  rcases List.mem_map.mp h with ⟨wb, hwb, hrec⟩
  exact ⟨wb, (List.mem_filter.mp hwb).1, (List.mem_filter.mp hwb).2, hrec.symm⟩

lemma mem_viewInner {conf : ViewConf} {san : String → String} {p n : String}
    {rec : Rec} : ∀ {vs : List TView}, rec ∈ viewInner conf san p n vs →
    ∃ v, v ∈ vs ∧ ∃ vpath, v.path = some vpath ∧ vpath ≠ "" ∧
      rec = viewRecord conf san p n v vpath := by
  intro vs
  induction vs with
  | nil => intro h; cases h
  | cons v vs ih =>
    intro h
    cases hpath : v.path with
    | none =>
      simp only [viewInner, hpath] at h
      rcases ih h with ⟨w, hw, rest⟩
      exact ⟨w, List.mem_cons_of_mem v hw, rest⟩
    | some vpath =>
      by_cases he : vpath = ""
      · simp only [viewInner, hpath, he, beq_self_eq_true, if_true] at h
        rcases ih h with ⟨w, hw, rest⟩
        exact ⟨w, List.mem_cons_of_mem v hw, rest⟩
      · simp only [viewInner, hpath] at h
        rw [if_neg (by simp [he])] at h
        rcases List.mem_cons.mp h with hr | hr
        · exact ⟨v, List.mem_cons_self v vs, vpath, hpath, he, hr⟩
        · rcases ih hr with ⟨w, hw, rest⟩
          exact ⟨w, List.mem_cons_of_mem v hw, rest⟩

lemma mem_viewOuter {conf : ViewConf} {san : String → String} {rec : Rec} :
    ∀ {wbs : List Workbook}, rec ∈ viewOuter conf san wbs →
    ∃ wb, wb ∈ wbs ∧ ∃ p n, wb.projectName = some p ∧ wb.name = some n ∧
      conf.excludedProjects.contains p = false ∧
      ∃ v, v ∈ wb.views ∧ ∃ vpath, v.path = some vpath ∧ vpath ≠ "" ∧
        rec = viewRecord conf san p n v vpath := by
  intro wbs
  induction wbs with
  | nil => intro h; cases h
  | cons wb wbs ih =>
    intro h
    cases hp : wb.projectName with
    | none =>
      simp only [viewOuter, hp] at h
      rcases ih h with ⟨w, hw, rest⟩
      exact ⟨w, List.mem_cons_of_mem wb hw, rest⟩
    | some p =>
      cases hn : wb.name with
      | none =>
        simp only [viewOuter, hp, hn] at h
        rcases ih h with ⟨w, hw, rest⟩
        exact ⟨w, List.mem_cons_of_mem wb hw, rest⟩
      | some n =>
        simp only [viewOuter, hp, hn] at h
        by_cases hex : conf.excludedProjects.contains p = true
        · rw [if_pos hex] at h
          rcases ih h with ⟨w, hw, rest⟩
          exact ⟨w, List.mem_cons_of_mem wb hw, rest⟩
        · rw [if_neg hex] at h
          rcases List.mem_append.mp h with hr | hr
          · rcases mem_viewInner hr with ⟨v, hv, vpath, hvp, hne, hrec⟩
            exact ⟨wb, List.mem_cons_self wb wbs, p, n, hp, hn,
              Bool.eq_false_iff.mpr hex, v, hv, vpath, hvp, hne, hrec⟩
          · rcases ih hr with ⟨w, hw, rest⟩
            exact ⟨w, List.mem_cons_of_mem wb hw, rest⟩

/-! ## Claim theorems -/

/-- C3: once the upstream sequence is exhausted, every `extract()` call of
each extractor returns the sentinel `none`.  The embedded step functions
are total and return again an exhausted state, so every subsequent call
returns `none` as well; no exception signals exhaustion (the only raised
condition, `StopIteration` inside `SnowflakeTableOwnerExtractor.extract`,
is caught and turned into the sentinel). -/
theorem extract_none_after_exhaustion (α : Type) (t : Rec → Option α)
    (conf : SnowConf) (c : Bool) :
    dashboardOwnerExtractStep t [] = (none, []) ∧
    dashboardUserExtractStep t [] = (none, []) ∧
    dashboardViewExtractStep t [] = (none, []) ∧
    snowExtract conf ⟨c, []⟩ = (none, ⟨true, []⟩) :=
  ⟨rfl, rfl, rfl, rfl⟩

/-- C5: every workbook kept by the dashboard-owner extractor yields exactly
one dict whose fields are precisely `cluster`, `dashboard_group_id`,
`dashboard_id`, `email`, in this order, mapped respectively from the
configured cluster, the workbook's `projectName`, the sanitized workbook
name and the workbook owner's email. -/
theorem ownerExecute_exact_mapping (conf : OwnerConf) (san : String → String)
    (wbs : List Workbook) :
    (ownerExecute conf san wbs).1 =
      (wbs.filter (ownerKeep conf)).map (ownerSpecRecord conf.cluster san) ∧
    ∀ wb : Workbook, (ownerSpecRecord conf.cluster san wb).map Prod.fst =
      ["cluster", "dashboard_group_id", "dashboard_id", "email"] :=
  ⟨ownerExecute_fst_eq conf san wbs, fun _ => rfl⟩

/-- C6: for every row handed back by the underlying SQL extractor,
`SnowflakeTableOwnerExtractor.extract` returns a `TableOwner` whose
`owners` list is exactly the one-element list obtained by applying the
configured role-to-identity mapping to the row's `table_owner`; when the
config key is absent the fallback `DEFAULT_CONFIG` supplies the identity. -/
theorem snowExtract_owner_from_row (conf : SnowConf) (c : Bool) (row : SnowRow)
    (rest : List SnowRow) :
    snowExtract conf ⟨c, row :: rest⟩ =
      (some (snowTableOwner conf row), ⟨true, rest⟩) ∧
    (snowTableOwner conf row).owners = [conf.roleEmailMapping row.table_owner] ∧
    ∀ r : String, snowRoleMapping none r = r :=
  ⟨rfl, rfl, fun _ => rfl⟩

/-- C7: every `extract()` call of `SnowflakeTableOwnerExtractor` leaves the
cached iterator in place (`created` is `true` afterwards and stays so) and
consumes at most one record from the underlying extractor: either nothing
was pending and the pending rows are unchanged, or exactly the head row was
fetched and transformed into the returned `TableOwner`. -/
theorem snowExtract_consumes_at_most_one (conf : SnowConf) (s : SnowState) :
    ((snowExtract conf s).2.created = true) ∧
    (((snowExtract conf s).1 = none ∧ (snowExtract conf s).2.rows = s.rows) ∨
      ∃ row, s.rows = row :: (snowExtract conf s).2.rows ∧
        (snowExtract conf s).1 = some (snowTableOwner conf row)) := by
  cases s with
  | mk c rows =>
    cases rows with
    | nil => exact ⟨rfl, Or.inl ⟨rfl, rfl⟩⟩
    | cons row rest => exact ⟨rfl, Or.inr ⟨row, rfl, rfl⟩⟩

/-- C10: when the cached iterator is exhausted, `extract()` returns `none`,
and exhaustion is stable: every one of the following `n` calls also returns
`none` and the state stays the exhausted one (`self._extract_iter` is a
truthy generator object, so it is never recreated). -/
theorem snowExtract_exhaustion_stable (conf : SnowConf) (c : Bool) (n : Nat) :
    (snowExtract conf ⟨c, []⟩).1 = none ∧
    snowExtractSeq conf n (snowExtract conf ⟨c, []⟩).2 =
      (List.replicate n none, ⟨true, []⟩) := by
  refine ⟨rfl, ?_⟩
  show snowExtractSeq conf n ⟨true, []⟩ = (List.replicate n none, ⟨true, []⟩)
  induction n with
  | zero => rfl
  | succ k ih => simp [snowExtractSeq, snowExtract, ih, List.replicate_succ]

/-- C8: the three Tableau `extract()` wrappers return `None` for every
falsy record handed back by the wrapped extractor (`None` or an empty
dict), and the record is never passed to the transformer: the result is
`none` for every transformer `t` alike. -/
theorem dashboardExtract_none_on_falsy (α : Type) (t : Rec → Option α)
    (record : Option Rec) (h : tableauFalsy record = true) :
    dashboardOwnerExtract t record = none ∧
    dashboardUserExtract t record = none ∧
    dashboardViewExtract t record = none := by
  cases record with
  | none => exact ⟨rfl, rfl, rfl⟩
  | some r =>
    have hr : r.isEmpty = true := h
    simp [dashboardOwnerExtract, dashboardUserExtract, dashboardViewExtract, hr]

/-- Witness for C8 at the empty dict, a falsy record that is not the
exhaustion sentinel. -/
theorem dashboardExtract_none_on_falsy_witness :
    dashboardOwnerExtract (fun r => some r) (some []) = none ∧
    dashboardUserExtract (fun r => some r) (some []) = none ∧
    dashboardViewExtract (fun r => some r) (some []) = none :=
  dashboardExtract_none_on_falsy Rec (fun r => some r) (some []) rfl

/-- C1 counterexample: `TableauGraphQLApiUserExtractor.execute` has no
null-key guard in its body, so it yields an output record from a workbook
whose `projectName` and `name` are both `None` (null join keys). -/
theorem userExecute_yields_on_null_key :
    (Workbook.projectName
      ⟨none, none, ⟨some "user@example.com", some "User", some "user"⟩,
        "p1", "w1", []⟩ = none) ∧
    (Workbook.name
      ⟨none, none, ⟨some "user@example.com", some "User", some "user"⟩,
        "p1", "w1", []⟩ = none) ∧
    userExecute
      [⟨none, none, ⟨some "user@example.com", some "User", some "user"⟩,
        "p1", "w1", []⟩] =
      [[("email", some "user@example.com"), ("full_name", some "User"),
        ("first_name", some "user")]] :=
  ⟨rfl, rfl, rfl⟩

/-- C1 (amended): the owner and view extractors skip rows with null join
keys — every output record of `TableauGraphQLApiOwnerExtractor.execute` is
exactly the owner record of a source workbook with non-null `projectName`
and `name`, and every output record of
`TableauGraphQLApiViewExtractor.execute` is exactly the view record of a
source workbook with non-null `projectName` and `name` and one of its
views with non-null `path`; so no output record is produced from a
null-key row.  The user extractor applies no null-key filter. -/
theorem ownerView_skip_null_join_keys :
    (∀ (conf : OwnerConf) (san : String → String) (wbs : List Workbook)
      (rec : Rec), rec ∈ (ownerExecute conf san wbs).1 →
      ∃ wb, wb ∈ wbs ∧ wb.projectName ≠ none ∧ wb.name ≠ none ∧
        rec = ownerSpecRecord conf.cluster san wb) ∧
    (∀ (conf : ViewConf) (san : String → String) (wbs : List Workbook)
      (rec : Rec), rec ∈ (viewExecute conf san wbs).1 →
      ∃ wb, wb ∈ wbs ∧ wb.projectName ≠ none ∧ wb.name ≠ none ∧
        ∃ p n, wb.projectName = some p ∧ wb.name = some n ∧
          ∃ v, v ∈ wb.views ∧ v.path ≠ none ∧
            ∃ vpath, v.path = some vpath ∧
              rec = viewRecord conf san p n v vpath) := by
  constructor
  · intro conf san wbs rec h
    rcases mem_ownerExecute h with ⟨wb, hmem, hkeep, hrec⟩
    rw [ownerKeep, Bool.and_eq_true, Bool.and_eq_true] at hkeep
    exact ⟨wb, hmem, Option.ne_none_iff_isSome.mpr hkeep.1.1,
      Option.ne_none_iff_isSome.mpr hkeep.1.2, hrec⟩
  · intro conf san wbs rec h
    rcases mem_viewOuter h with
      ⟨wb, hmem, p, n, hp, hn, _, v, hv, vpath, hvp, _, hrec⟩
    exact ⟨wb, hmem, by simp [hp], by simp [hn], p, n, hp, hn, v, hv,
      by simp [hvp], vpath, hvp, hrec⟩

/-- Witness for C1 (amended): a concrete kept workbook and its owner
record. -/
theorem ownerView_skip_null_join_keys_witness :
    ∃ wb, wb ∈ [(⟨some "W", some "P", ⟨some "e@x", none, none⟩,
        "pv", "v", []⟩ : Workbook)] ∧
      wb.projectName ≠ none ∧ wb.name ≠ none ∧
      [("cluster", some "c"), ("dashboard_group_id", some "P"),
       ("dashboard_id", some "W"), ("email", some "e@x")] =
        ownerSpecRecord "c" (fun s => s) wb :=
  ownerView_skip_null_join_keys.1 ⟨"c", []⟩ (fun s => s)
    [⟨some "W", some "P", ⟨some "e@x", none, none⟩, "pv", "v", []⟩]
    [("cluster", some "c"), ("dashboard_group_id", some "P"),
     ("dashboard_id", some "W"), ("email", some "e@x")]
    (by decide)

/-- C2 counterexample: `TableauGraphQLApiUserExtractor.execute` ignores the
excluded-projects configuration (the class declares the config key but its
body never reads it), so it yields an output record from a workbook whose
`projectName` is in the exclusion list `["Secret"]`. -/
theorem userExecute_ignores_exclusion :
    (Workbook.projectName
      ⟨some "W", some "Secret", ⟨some "e@x", some "N", some "U"⟩,
        "p1", "w1", []⟩ = some "Secret") ∧
    ("Secret" ∈ ["Secret"]) ∧
    userExecute
      [⟨some "W", some "Secret", ⟨some "e@x", some "N", some "U"⟩,
        "p1", "w1", []⟩] =
      [[("email", some "e@x"), ("full_name", some "N"),
        ("first_name", some "U")]] :=
  ⟨rfl, List.mem_singleton.mpr rfl, rfl⟩

/-- C2 (amended): the owner and view extractors exclude rows whose group
field is in the configured exclusion list — every output record of
`TableauGraphQLApiOwnerExtractor.execute` is exactly the owner record of a
source workbook whose `projectName` is not in the excluded projects, and
every output record of `TableauGraphQLApiViewExtractor.execute` is exactly
the view record of such a workbook and one of its views; so no output
record is produced from an excluded workbook.  The user extractor applies
no exclusion filter. -/
theorem ownerView_exclusion_filter :
    (∀ (conf : OwnerConf) (san : String → String) (wbs : List Workbook)
      (rec : Rec), rec ∈ (ownerExecute conf san wbs).1 →
      ∃ wb, wb ∈ wbs ∧ optMemList wb.projectName conf.excludedProjects = false ∧
        rec = ownerSpecRecord conf.cluster san wb) ∧
    (∀ (conf : ViewConf) (san : String → String) (wbs : List Workbook)
      (rec : Rec), rec ∈ (viewExecute conf san wbs).1 →
      ∃ wb, wb ∈ wbs ∧ ∃ p, wb.projectName = some p ∧
        conf.excludedProjects.contains p = false ∧
        ∃ n, wb.name = some n ∧ ∃ v, v ∈ wb.views ∧
          ∃ vpath, v.path = some vpath ∧
            rec = viewRecord conf san p n v vpath) := by
  constructor
  · intro conf san wbs rec h
    rcases mem_ownerExecute h with ⟨wb, hmem, hkeep, hrec⟩
    rw [ownerKeep, Bool.and_eq_true] at hkeep
    exact ⟨wb, hmem, by simpa using hkeep.2, hrec⟩
  · intro conf san wbs rec h
    rcases mem_viewOuter h with
      ⟨wb, hmem, p, n, hp, hn, hex, v, hv, vpath, hvp, _, hrec⟩
    exact ⟨wb, hmem, p, hp, hex, n, hn, v, hv, vpath, hvp, hrec⟩

/-- Witness for C2 (amended): a concrete configuration with an excluded
project and a kept workbook from another project, with its record. -/
theorem ownerView_exclusion_filter_witness :
    ∃ wb, wb ∈ [(⟨some "W", some "P", ⟨some "e@x", none, none⟩,
        "pv", "v", []⟩ : Workbook)] ∧
      optMemList wb.projectName (OwnerConf.excludedProjects ⟨"c", ["X"]⟩) = false ∧
      [("cluster", some "c"), ("dashboard_group_id", some "P"),
       ("dashboard_id", some "W"), ("email", some "e@x")] =
        ownerSpecRecord "c" (fun s => s) wb :=
  ownerView_exclusion_filter.1 ⟨"c", ["X"]⟩ (fun s => s)
    [⟨some "W", some "P", ⟨some "e@x", none, none⟩, "pv", "v", []⟩]
    [("cluster", some "c"), ("dashboard_group_id", some "P"),
     ("dashboard_id", some "W"), ("email", some "e@x")]
    (by decide)

/-- C4 counterexample: `TableauGraphQLApiViewExtractor.execute` skips a
workbook with a null join key silently — the workbook below has a view
with a valid path, yet the output is empty (the row was skipped) and the
warning log is empty, so the skip is not logged. -/
theorem viewExecute_skips_silently :
    (Workbook.name
      ⟨none, some "P", ⟨none, none, none⟩, "pv", "v",
        [⟨"id1", 0, "V", some "path1"⟩]⟩ = none) ∧
    viewExecute ⟨"http://t", "", [], "c"⟩ (fun s => s)
      [⟨none, some "P", ⟨none, none, none⟩, "pv", "v",
        [⟨"id1", 0, "V", some "path1"⟩]⟩] = ([], []) :=
  ⟨rfl, rfl⟩

/-- C4 (amended): null-join-key skips are always non-fatal, but only the
owner extractor logs them: `TableauGraphQLApiOwnerExtractor.execute` emits
exactly one warning (naming the workbook's vizportal ids) per non-excluded
workbook with a null join key, while `TableauGraphQLApiViewExtractor.execute`
contains no logging call and its warning log is always empty. -/
theorem owner_logs_skips_view_does_not :
    (∀ (conf : OwnerConf) (san : String → String) (wbs : List Workbook),
      (ownerExecute conf san wbs).2 =
        (wbs.filter (ownerWarned conf)).map ownerWarn) ∧
    (∀ wb : Workbook, ownerWarn wb =
      "Ignoring workbook (ID:" ++ wb.vizportalUrlId ++ ") in project (ID:" ++
        wb.projectVizportalUrlId ++ ") because of a lack of permission") ∧
    (∀ (conf : ViewConf) (san : String → String) (wbs : List Workbook),
      (viewExecute conf san wbs).2 = []) :=
  ⟨ownerExecute_snd_eq, fun _ => rfl, fun _ _ _ => rfl⟩

/-- C9: every record yielded by `TableauGraphQLApiViewExtractor.execute`
has `query_text` equal to `url`; its `query_name` is the source view's
index and name joined as `index. name`; and when a non-empty site name is
configured both URL fields contain the `/site/` + site-name segment, while
with an empty site name the URL is exactly `base_url/#/views/path` with no
site segment inserted. -/
theorem viewExecute_url_properties (conf : ViewConf) (san : String → String)
    (wbs : List Workbook) (rec : Rec)
    (h : rec ∈ (viewExecute conf san wbs).1) :
    ∃ wb v vpath, wb ∈ wbs ∧ v ∈ Workbook.views wb ∧ TView.path v = some vpath ∧
      rec.lookup "query_text" = rec.lookup "url" ∧
      rec.lookup "url" =
        some (some (viewUrl conf.tableauBaseUrl conf.siteName vpath)) ∧
      rec.lookup "query_text" =
        some (some (viewUrl conf.tableauBaseUrl conf.siteName vpath)) ∧
      rec.lookup "query_name" =
        some (some (toString (TView.index v) ++ ". " ++ TView.name v)) ∧
      (conf.siteName ≠ "" →
        strContains (viewUrl conf.tableauBaseUrl conf.siteName vpath)
          ("/site/" ++ conf.siteName)) ∧
      (conf.siteName = "" →
        viewUrl conf.tableauBaseUrl conf.siteName vpath =
          conf.tableauBaseUrl ++ "/#/views/" ++ vpath) := by
  rcases mem_viewOuter h with
    ⟨wb, hmem, p, n, hp, hn, hex, v, hv, vpath, hvp, hne, hrec⟩
  subst hrec
  refine ⟨wb, v, vpath, hmem, hv, hvp, ?_, ?_, ?_, ?_, ?_, ?_⟩
  · simp [viewRecord, List.lookup]
  · simp [viewRecord, List.lookup]
  · simp [viewRecord, List.lookup]
  · simp [viewRecord, List.lookup]
  · intro hsite
    exact ⟨conf.tableauBaseUrl ++ "/#", "/views/" ++ vpath, by
      simp [viewUrl, siteUrlPath, hsite, String.append_assoc]⟩
  · intro hsite
    simp [viewUrl, siteUrlPath, hsite, String.append_assoc]

/-- Witness for C9: a concrete workbook with one view, under a configured
site name. -/
theorem viewExecute_url_properties_witness :
    ∃ wb v vpath,
      wb ∈ [(⟨some "W", some "P", ⟨none, none, none⟩, "a", "b",
        [⟨"id1", 1, "V", some "pth"⟩]⟩ : Workbook)] ∧
      v ∈ Workbook.views wb ∧ TView.path v = some vpath ∧
      List.lookup "query_text"
        [("dashboard_group_id", some "P"), ("dashboard_id", some "W"),
         ("query_name", some "1. V"), ("query_id", some "id1"),
         ("query_text", some "http://t/#/site/s1/views/pth"),
         ("url", some "http://t/#/site/s1/views/pth"),
         ("cluster", some "c")] =
      List.lookup "url"
        [("dashboard_group_id", some "P"), ("dashboard_id", some "W"),
         ("query_name", some "1. V"), ("query_id", some "id1"),
         ("query_text", some "http://t/#/site/s1/views/pth"),
         ("url", some "http://t/#/site/s1/views/pth"),
         ("cluster", some "c")] ∧
      List.lookup "url"
        [("dashboard_group_id", some "P"), ("dashboard_id", some "W"),
         ("query_name", some "1. V"), ("query_id", some "id1"),
         ("query_text", some "http://t/#/site/s1/views/pth"),
         ("url", some "http://t/#/site/s1/views/pth"),
         ("cluster", some "c")] = some (some (viewUrl "http://t" "s1" vpath)) ∧
      List.lookup "query_text"
        [("dashboard_group_id", some "P"), ("dashboard_id", some "W"),
         ("query_name", some "1. V"), ("query_id", some "id1"),
         ("query_text", some "http://t/#/site/s1/views/pth"),
         ("url", some "http://t/#/site/s1/views/pth"),
         ("cluster", some "c")] = some (some (viewUrl "http://t" "s1" vpath)) ∧
      List.lookup "query_name"
        [("dashboard_group_id", some "P"), ("dashboard_id", some "W"),
         ("query_name", some "1. V"), ("query_id", some "id1"),
         ("query_text", some "http://t/#/site/s1/views/pth"),
         ("url", some "http://t/#/site/s1/views/pth"),
         ("cluster", some "c")] =
        some (some (toString (TView.index v) ++ ". " ++ TView.name v)) ∧
      ("s1" ≠ "" → strContains (viewUrl "http://t" "s1" vpath) ("/site/" ++ "s1")) ∧
      ("s1" = "" → viewUrl "http://t" "s1" vpath = "http://t" ++ "/#/views/" ++ vpath) :=
  viewExecute_url_properties ⟨"http://t", "s1", [], "c"⟩ (fun s => s)
    [⟨some "W", some "P", ⟨none, none, none⟩, "a", "b",
      [⟨"id1", 1, "V", some "pth"⟩]⟩]
    [("dashboard_group_id", some "P"), ("dashboard_id", some "W"),
     ("query_name", some "1. V"), ("query_id", some "id1"),
     ("query_text", some "http://t/#/site/s1/views/pth"),
     ("url", some "http://t/#/site/s1/views/pth"),
     ("cluster", some "c")]
    (by decide)

end Databuilder
